import Mathlib

/-!
# Verification of `translate_pptx.py`

A shallow embedding of the slide-deck translation script. The script walks a
presentation (slides → shapes → text frames), sends each non-empty text frame
to an external translation service, writes the translated text back, and saves
one output file per target language (French, English).

Modelling choices:
* A `Shape` keeps an optional text frame (`none` when `shape.has_text_frame`
  is false) together with an opaque `props` string standing for all the
  non-text state of the shape, which the script never touches.
* The external chat-completion service is an `Oracle`: a function from the
  request to `Except String String` (`.error e` models any raised exception,
  carrying the exception's message).
* Side effects (stdout prints, file reads, file writes, API calls) are
  recorded in an explicit `Event` trace; `time.sleep(1)` is real time and is
  not modelled.
* Python's `str.strip()` is modelled by `pyStrip`, which removes whitespace
  characters from both ends.
* Process exit is modelled by returning an exit code together with the trace
  accumulated up to the exit.
-/

/-- Python's `str.strip()`: remove leading and trailing whitespace. -/
def pyStrip (s : String) : String :=
  ⟨List.rdropWhile Char.isWhitespace (List.dropWhile Char.isWhitespace s.data)⟩

/-- One chat message, as in the `messages` list of the API request. -/
structure Message where
  role : String
  content : String
deriving DecidableEq, Repr

/-- The request sent by `openai.ChatCompletion.create` in `translate_text`. -/
structure ChatRequest where
  model : String
  messages : List Message
  temperature : Nat
deriving DecidableEq, Repr

/-- The two-message prompt built by `translate_text` (lines 35-44 of the
source): a system instruction naming Dutch and the target language, and a
user message `f"Text:\n{text}"`. -/
def mkMessages (text target_language : String) : List Message :=
  [ { role := "system",
      content :=
        "You are a professional translator. Please translate the following Dutch text "
          ++ "into " ++ target_language ++ ", preserving its original formatting where possible." },
    { role := "user", content := "Text:\n" ++ text } ]

/-- The full request of `translate_text`: model `"gpt-4-turbo"`, the
two-message prompt, `temperature=0`. -/
def mkRequest (text target_language : String) : ChatRequest :=
  { model := "gpt-4-turbo", messages := mkMessages text target_language, temperature := 0 }

/-- The external service: given the request, either the content of
`response.choices[0].message['content']` or an exception with message `e`. -/
def Oracle : Type := ChatRequest → Except String String

/-- A shape on a slide: `textFrame = none` models `has_text_frame = False`;
`props` stands for all non-text state of the shape, untouched by the script. -/
structure Shape where
  textFrame : Option String
  props : String
deriving DecidableEq, Repr

/-- A slide is its ordered list of shapes. -/
def Slide : Type := List Shape
deriving DecidableEq, Repr

/-- A presentation is its ordered list of slides. -/
def Presentation : Type := List Slide
deriving DecidableEq, Repr

/-- Observable side effects of a run. -/
inductive Event where
  /-- A line printed to standard output. -/
  | print (msg : String)
  /-- The input document file opened and read (`Presentation(file_path)`). -/
  | fileRead (path : String)
  /-- An output document successfully saved (`presentation.save`). -/
  | fileWrite (path : String) (doc : Presentation)
  /-- A call to the external translation API. -/
  | apiCall (req : ChatRequest)
deriving DecidableEq, Repr

/-- `translate_text(text, target_language)` (source lines 27-51): builds the
request, calls the service; on success returns the response content stripped,
on any exception prints the error and returns the original text. Returns the
resulting text together with the trace of the call. -/
def translate_text (oracle : Oracle) (text target_language : String) :
    String × List Event :=
  let req := mkRequest text target_language
  match oracle req with
  | Except.ok content => (pyStrip content, [Event.apiCall req])
  | Except.error e =>
      (text, [Event.apiCall req, Event.print ("Translation error: " ++ e)])

/-- The body of the inner loop of `translate_presentation` (source lines
60-71) for one shape: skip shapes without a text frame and text frames whose
text strips to empty; otherwise print progress, translate, and write the
translated text back. `slide_index`/`shape_index` are the 1-based indices
used in the progress message. -/
def processShape (oracle : Oracle) (target_language : String)
    (slide_index shape_index : Nat) (s : Shape) : Shape × List Event :=
  match s.textFrame with
  | none => (s, [])
  | some original_text =>
      if pyStrip original_text = "" then (s, [])
      else
        let (translated_text, evs) := translate_text oracle original_text target_language
        ({ s with textFrame := some translated_text },
          Event.print
              ("Translating slide " ++ toString slide_index ++ ", shape "
                ++ toString shape_index ++ "...")
            :: evs)

/-- The inner `for shape_index, shape in enumerate(slide.shapes, start=1)`
loop over the remaining shapes of one slide. -/
def walkShapes (oracle : Oracle) (target_language : String)
    (slide_index shape_index : Nat) : List Shape → List Shape × List Event
  | [] => ([], [])
  | s :: rest =>
      let (s2, evs) := processShape oracle target_language slide_index shape_index s
      let (rest2, evs2) := walkShapes oracle target_language slide_index (shape_index + 1) rest
      (s2 :: rest2, evs ++ evs2)

/-- The outer `for slide_index, slide in enumerate(presentation.slides,
start=1)` loop over the remaining slides. -/
def walkSlides (oracle : Oracle) (target_language : String)
    (slide_index : Nat) : List Slide → List Slide × List Event
  | [] => ([], [])
  | sl :: rest =>
      let (sl2, evs) := walkShapes oracle target_language slide_index 1 sl
      let (rest2, evs2) := walkSlides oracle target_language (slide_index + 1) rest
      (sl2 :: rest2, evs ++ evs2)

/-- The in-memory part of `translate_presentation` (source lines 59-71): the
full nested walk over an already-loaded presentation, returning the mutated
presentation and the trace. -/
def translate_presentation_core (oracle : Oracle) (target_language : String)
    (p : Presentation) : Presentation × List Event :=
  walkSlides oracle target_language 1 p

/-- The pure per-shape transformation performed by the walk (the first
component of `processShape`, which does not depend on the loop indices). -/
def transformShape (oracle : Oracle) (target_language : String) (s : Shape) : Shape :=
  match s.textFrame with
  | none => s
  | some original_text =>
      if pyStrip original_text = "" then s
      else { s with textFrame := some (translate_text oracle original_text target_language).1 }

/-- The text of a shape's text frame when the shape is actually translated:
`some t` iff the shape has a text frame whose text does not strip to empty. -/
def nonEmptyText (s : Shape) : Option String :=
  match s.textFrame with
  | none => none
  | some t => if pyStrip t = "" then none else some t

/-- All texts of a presentation that the walk submits for translation, in
document order. -/
def nonEmptyTexts (p : Presentation) : List String :=
  (p.map fun sl => sl.filterMap nonEmptyText).flatten

/-- A shape the walk skips: no text frame, or text that strips to empty. -/
def skippedShape (s : Shape) : Bool :=
  match s.textFrame with
  | none => true
  | some t => pyStrip t = ""

/-- The structural skeleton of a shape: everything except the text frame's
text content. -/
def shapeSkeleton (s : Shape) : Bool × String :=
  (s.textFrame.isSome, s.props)

/-- The structural skeleton of a presentation: slide count and order, shape
count and order per slide, and each shape's non-text state. -/
def skeleton (p : Presentation) : List (List (Bool × String)) :=
  p.map fun sl => sl.map shapeSkeleton

/-- The API requests occurring in a trace, in order. -/
def apiCalls (evs : List Event) : List ChatRequest :=
  evs.filterMap fun e =>
    match e with
    | Event.apiCall req => some req
    | _ => none

/-- The input-file reads occurring in a trace, in order. -/
def fileReads (evs : List Event) : List String :=
  evs.filterMap fun e =>
    match e with
    | Event.fileRead path => some path
    | _ => none

/-- The successful document saves occurring in a trace, in order: output
path together with the saved document. -/
def fileWrites (evs : List Event) : List (String × Presentation) :=
  evs.filterMap fun e =>
    match e with
    | Event.fileWrite path doc => some (path, doc)
    | _ => none

/-- The filesystem and environment a run sees. `files path` is `none` when no
file exists at `path` (`os.path.exists` false), `some (Except.error e)` when a
file exists but `Presentation(path)` raises an exception with message `e`, and
`some (Except.ok p)` when it parses as presentation `p`. `saveOk out doc`
tells whether `presentation.save(out)` succeeds. `apiKey` is
`os.getenv("OPENAI_API_KEY")` after `load_dotenv()`. `argv` is `sys.argv`. -/
structure World where
  apiKey : Option String
  argv : List String
  files : String → Option (Except String Presentation)
  oracle : Oracle
  saveOk : String → Presentation → Bool

/-- Python truthiness of the module-level `openai.api_key` value: falsy when
the variable is unset or the empty string. -/
def keyOk (w : World) : Bool :=
  match w.apiKey with
  | none => false
  | some s => !(s = "")

/-- `load_presentation(file_path)` (source lines 16-25): read the file and
parse it; on any exception print the error and exit. Returns the trace and
`some presentation` on success, `none` when the process exits with code 1.
A missing file is modelled as the parse exception python-pptx raises. -/
def load_presentation (w : World) (file_path : String) :
    List Event × Option Presentation :=
  match w.files file_path with
  | some (Except.ok p) => ([Event.fileRead file_path], some p)
  | some (Except.error e) =>
      ([Event.fileRead file_path,
        Event.print ("Error loading file " ++ file_path ++ ": " ++ e)], none)
  | none =>
      ([Event.fileRead file_path,
        Event.print ("Error loading file " ++ file_path ++ ": Package not found at "
          ++ file_path)], none)

/-- `translate_presentation(input_file, output_file, target_language)`
(source lines 53-72): load the input, walk and translate it, save the result.
Returns the trace and `true` when the function returns normally, `false`
when the process terminates (load failure exits with code 1; a save exception
propagates out uncaught). -/
def translate_presentation (w : World) (input_file output_file target_language : String) :
    List Event × Bool :=
  match load_presentation w input_file with
  | (evs, none) => (evs, false)
  | (evs, some presentation) =>
      let (p2, evs2) := translate_presentation_core w.oracle target_language presentation
      if w.saveOk output_file p2 then
        (evs ++ evs2 ++ [Event.fileWrite output_file p2], true)
      else
        (evs ++ evs2, false)

/-- Index of the last occurrence of `c` in `cs` (Python `str.rfind`), `none`
when absent. -/
def rfindChar (cs : List Char) (c : Char) : Option Nat :=
  ((List.range cs.length).filter fun i => cs.get? i = some c).getLast?

/-- `os.path.splitext` for POSIX paths, following CPython's
`genericpath._splitext`: split at the last dot of the final path component,
unless every character of that component before the dot is itself a dot. -/
def splitext (p : String) : String × String :=
  let cs := p.data
  match rfindChar cs '.' with
  | none => (p, "")
  | some dotIndex =>
      let filenameIndex :=
        match rfindChar cs '/' with
        | none => 0
        | some sepIndex => sepIndex + 1
      if filenameIndex ≤ dotIndex then
        if (List.range' filenameIndex (dotIndex - filenameIndex)).any
            (fun i => !(cs.get? i = some '.')) then
          (⟨cs.take dotIndex⟩, ⟨cs.drop dotIndex⟩)
        else (p, "")
      else (p, "")

/-- `main()` (source lines 74-94): check the CLI argument and the input
file's existence, derive the two output paths, then run the French pass and
the English pass. Returns the trace and the process exit code (1 on any
fatal condition, 0 on success). (Named `main_run` because Lean reserves the
name `main` for executable entry points.) -/
def main_run (w : World) : List Event × Nat :=
  if w.argv.length < 2 then
    ([Event.print "Usage: python translate_pptx.py <input.pptx>"], 1)
  else
    let input_file := w.argv.getD 1 ""
    if (w.files input_file).isNone then
      ([Event.print ("Error: File " ++ input_file ++ " does not exist.")], 1)
    else
      let (file_base, file_ext) := splitext input_file
      let output_file_fr := file_base ++ "_fr" ++ file_ext
      let output_file_en := file_base ++ "_en" ++ file_ext
      let (evs1, ok1) := translate_presentation w input_file output_file_fr "French"
      if ok1 then
        let (evs2, ok2) := translate_presentation w input_file output_file_en "English"
        if ok2 then
          (Event.print "Starting translation to French..." :: evs1
            ++ Event.print ("French translation saved to " ++ output_file_fr)
            :: Event.print "Starting translation to English..." :: evs2
            ++ [Event.print ("English translation saved to " ++ output_file_en)], 0)
        else
          (Event.print "Starting translation to French..." :: evs1
            ++ Event.print ("French translation saved to " ++ output_file_fr)
            :: Event.print "Starting translation to English..." :: evs2, 1)
      else
        (Event.print "Starting translation to French..." :: evs1, 1)

/-- The whole process: the module top-level (source lines 10-14) checks the
credential and exits with code 1 before anything else; otherwise `main()`
runs. -/
def program_run (w : World) : List Event × Nat :=
  if keyOk w then main_run w
  else ([Event.print "Error: OPENAI_API_KEY is not set in the environment."], 1)

/-! ## Concrete instances used by the testable properties -/

/-- A mocked translation service that answers every request with
`"Hello world"`. -/
def demoOracle : Oracle := fun _ => Except.ok "Hello world"

/-- The 2-slide input of the spec's example: slide 1 has one shape with text
`"Hallo wereld"`, slide 2 has one shape without a text frame. -/
def demoPresentation : Presentation :=
  [[{ textFrame := some "Hallo wereld", props := "title box" }],
   [{ textFrame := none, props := "picture" }]]

/-- A world in which a full run succeeds on input `in.pptx`. -/
def demoWorld : World :=
  { apiKey := some "sk-test"
    argv := ["translate_pptx.py", "in.pptx"]
    files := fun path => if path = "in.pptx" then some (Except.ok demoPresentation) else none
    oracle := demoOracle
    saveOk := fun _ _ => true }

/-- A world in which a full run succeeds on input `deck.pptx`. -/
def deckWorld : World :=
  { apiKey := some "sk-test"
    argv := ["translate_pptx.py", "deck.pptx"]
    files := fun path => if path = "deck.pptx" then some (Except.ok demoPresentation) else none
    oracle := demoOracle
    saveOk := fun _ _ => true }

/-- A world with no `OPENAI_API_KEY` in the environment. -/
def noKeyWorld : World :=
  { apiKey := none
    argv := ["translate_pptx.py", "in.pptx"]
    files := fun path => if path = "in.pptx" then some (Except.ok demoPresentation) else none
    oracle := demoOracle
    saveOk := fun _ _ => true }

/-- A world invoked without the input-path argument. -/
def shortArgvWorld : World :=
  { apiKey := some "sk-test"
    argv := ["translate_pptx.py"]
    files := fun path => if path = "in.pptx" then some (Except.ok demoPresentation) else none
    oracle := demoOracle
    saveOk := fun _ _ => true }

/-- A world whose input path names no existing file. -/
def missingFileWorld : World :=
  { apiKey := some "sk-test"
    argv := ["translate_pptx.py", "absent.pptx"]
    files := fun _ => none
    oracle := demoOracle
    saveOk := fun _ _ => true }

/-- A world whose input file exists but fails to parse as a presentation. -/
def badParseWorld : World :=
  { apiKey := some "sk-test"
    argv := ["translate_pptx.py", "in.pptx"]
    files := fun path => if path = "in.pptx" then some (Except.error "Bad zip file") else none
    oracle := demoOracle
    saveOk := fun _ _ => true }

/-- A world in which saving any output file fails. -/
def saveFailWorld : World :=
  { apiKey := some "sk-test"
    argv := ["translate_pptx.py", "in.pptx"]
    files := fun path => if path = "in.pptx" then some (Except.ok demoPresentation) else none
    oracle := demoOracle
    saveOk := fun _ _ => false }

/-- A world in which the French output saves fine but saving the English
output fails. -/
def enSaveFailWorld : World :=
  { apiKey := some "sk-test"
    argv := ["translate_pptx.py", "in.pptx"]
    files := fun path => if path = "in.pptx" then some (Except.ok demoPresentation) else none
    oracle := demoOracle
    saveOk := fun path _ => path == "in_fr.pptx" }

/-! ## Helper lemmas about the walk -/

/-- Stripping is idempotent: a stripped string has no leading or trailing
whitespace left to remove. -/
theorem pyStrip_idempotent (s : String) : pyStrip (pyStrip s) = pyStrip s := by
  have key : ∀ (l : List Char),
      List.rdropWhile Char.isWhitespace (List.dropWhile Char.isWhitespace
        (List.rdropWhile Char.isWhitespace (List.dropWhile Char.isWhitespace l)))
      = List.rdropWhile Char.isWhitespace (List.dropWhile Char.isWhitespace l) := by
    intro l
    set A := List.dropWhile Char.isWhitespace l with hA
    have hAself : List.dropWhile Char.isWhitespace A = A := by
      rw [hA]
      exact List.dropWhile_idempotent _ _
    have hpre := List.rdropWhile_prefix Char.isWhitespace A
    have h1 : List.dropWhile Char.isWhitespace (List.rdropWhile Char.isWhitespace A)
        = List.rdropWhile Char.isWhitespace A := by
      rw [List.dropWhile_eq_self_iff]
      intro hl
      have hlen : 0 < A.length := lt_of_lt_of_le hl hpre.length_le
      have hhead := List.dropWhile_eq_self_iff.mp hAself hlen
      have hgeteq : (List.rdropWhile Char.isWhitespace A).get ⟨0, hl⟩ = A.get ⟨0, hlen⟩ := by
        simp only [List.get_eq_getElem]
        exact hpre.getElem hl
      rw [hgeteq]
      exact hhead
    rw [h1]
    exact List.rdropWhile_idempotent _ _
  exact congrArg String.mk (key s.data)

/-- The shape produced by one loop body is `transformShape` of the input
shape, independent of the loop indices. -/
theorem processShape_fst (oracle : Oracle) (g : String) (si hi : Nat) (s : Shape) :
    (processShape oracle g si hi s).1 = transformShape oracle g s := by
  unfold processShape transformShape
  cases s.textFrame with
  | none => rfl
  | some t =>
      by_cases h : pyStrip t = "" <;> simp [h]

/-- The inner loop maps `transformShape` over the shapes of a slide. -/
theorem walkShapes_fst (oracle : Oracle) (g : String) (si hi : Nat) (L : List Shape) :
    (walkShapes oracle g si hi L).1 = L.map (transformShape oracle g) := by
  induction L generalizing hi with
  | nil => rfl
  | cons s rest ih =>
      simp [walkShapes, processShape_fst, ih]

/-- The outer loop maps the inner walk over the slides. -/
theorem walkSlides_fst (oracle : Oracle) (g : String) (si : Nat) (p : List Slide) :
    (walkSlides oracle g si p).1 = p.map (fun sl => List.map (transformShape oracle g) sl) := by
  induction p generalizing si with
  | nil => rfl
  | cons sl rest ih =>
      simp [walkSlides, walkShapes_fst, ih]

/-- The presentation produced by the walk is the per-shape transformation
mapped over every slide. -/
theorem core_fst (oracle : Oracle) (g : String) (p : Presentation) :
    (translate_presentation_core oracle g p).1
      = p.map (fun sl => List.map (transformShape oracle g) sl) :=
  walkSlides_fst oracle g 1 p

theorem apiCalls_append (a b : List Event) :
    apiCalls (a ++ b) = apiCalls a ++ apiCalls b := by
  simp [apiCalls, List.filterMap_append]

/-- One loop body performs exactly one API call when the shape carries
non-empty text, and none otherwise. -/
theorem processShape_apiCalls (oracle : Oracle) (g : String) (si hi : Nat) (s : Shape) :
    apiCalls (processShape oracle g si hi s).2
      = (nonEmptyText s).toList.map (fun t => mkRequest t g) := by
  unfold processShape nonEmptyText
  cases s.textFrame with
  | none => rfl
  | some t =>
      by_cases h : pyStrip t = ""
      · simp [h, apiCalls]
      · simp only [h, if_false]
        unfold translate_text
        cases h2 : oracle (mkRequest t g) <;> simp [h2, apiCalls]

/-- The inner loop performs exactly one API call per non-empty text frame of
the slide, in order. -/
theorem walkShapes_apiCalls (oracle : Oracle) (g : String) (si hi : Nat) (L : List Shape) :
    apiCalls (walkShapes oracle g si hi L).2
      = (L.filterMap nonEmptyText).map (fun t => mkRequest t g) := by
  induction L generalizing hi with
  | nil => rfl
  | cons s rest ih =>
      simp only [walkShapes, List.filterMap_cons]
      rw [apiCalls_append, processShape_apiCalls, ih]
      cases nonEmptyText s <;> simp

theorem walkSlides_apiCalls (oracle : Oracle) (g : String) (si : Nat) (p : List Slide) :
    apiCalls (walkSlides oracle g si p).2
      = ((p.map fun sl => sl.filterMap nonEmptyText).flatten).map (fun t => mkRequest t g) := by
  induction p generalizing si with
  | nil => rfl
  | cons sl rest ih =>
      simp only [walkSlides, List.map_cons, List.flatten_cons, List.map_append]
      rw [apiCalls_append, walkShapes_apiCalls, ih]

/-- One full pass performs exactly one API call per non-empty text frame of
the document, in document order. -/
theorem core_apiCalls (oracle : Oracle) (g : String) (p : Presentation) :
    apiCalls (translate_presentation_core oracle g p).2
      = (nonEmptyTexts p).map (fun t => mkRequest t g) :=
  walkSlides_apiCalls oracle g 1 p

/-- The per-shape transformation changes at most the text content. -/
theorem transformShape_skeleton (oracle : Oracle) (g : String) (s : Shape) :
    shapeSkeleton (transformShape oracle g s) = shapeSkeleton s := by
  obtain ⟨tf, pr⟩ := s
  unfold transformShape shapeSkeleton
  cases tf with
  | none => rfl
  | some t => by_cases h : pyStrip t = "" <;> simp [h]

/-- The walk preserves the structural skeleton of the document. -/
theorem core_skeleton (oracle : Oracle) (g : String) (p : Presentation) :
    skeleton (translate_presentation_core oracle g p).1 = skeleton p := by
  rw [core_fst]
  unfold skeleton
  simp [List.map_map, Function.comp, transformShape_skeleton]

/-- A skipped shape (no text frame, or whitespace-only text) is left exactly
as it was. -/
theorem transformShape_skipped (oracle : Oracle) (g : String) (s : Shape)
    (h : skippedShape s = true) : transformShape oracle g s = s := by
  obtain ⟨tf, pr⟩ := s
  unfold transformShape
  unfold skippedShape at h
  cases tf with
  | none => rfl
  | some t =>
      simp only [decide_eq_true_eq] at h
      simp [h]

/-- `translate_text` under a service that always raises: return the original
text and log the error. -/
theorem translate_text_fail (e text g : String) :
    translate_text (fun _ => Except.error e) text g
      = (text, [Event.apiCall (mkRequest text g),
                Event.print ("Translation error: " ++ e)]) := rfl

theorem transformShape_fail (e g : String) (s : Shape) :
    transformShape (fun _ => Except.error e) g s = s := by
  obtain ⟨tf, pr⟩ := s
  unfold transformShape
  cases tf with
  | none => rfl
  | some t => by_cases h : pyStrip t = "" <;> simp [h, translate_text_fail]

/-- A pass in which every translation call fails leaves the whole document
unchanged. -/
theorem core_fail (e g : String) (p : Presentation) :
    (translate_presentation_core (fun _ => Except.error e) g p).1 = p := by
  have hfun : transformShape (fun _ => Except.error e) g = id :=
    funext (transformShape_fail e g)
  rw [core_fst, hfun]
  simp

/-! ## Driver-level lemmas -/

theorem load_presentation_ok (w : World) (path : String) (p : Presentation)
    (h : w.files path = some (Except.ok p)) :
    load_presentation w path = ([Event.fileRead path], some p) := by
  unfold load_presentation
  rw [h]

theorem load_presentation_err (w : World) (path e : String)
    (h : w.files path = some (Except.error e)) :
    load_presentation w path
      = ([Event.fileRead path,
          Event.print ("Error loading file " ++ path ++ ": " ++ e)], none) := by
  unfold load_presentation
  rw [h]

theorem translate_presentation_ok (w : World) (input out g : String) (p : Presentation)
    (hf : w.files input = some (Except.ok p))
    (hs : w.saveOk out (translate_presentation_core w.oracle g p).1 = true) :
    translate_presentation w input out g
      = (Event.fileRead input :: (translate_presentation_core w.oracle g p).2
          ++ [Event.fileWrite out (translate_presentation_core w.oracle g p).1], true) := by
  unfold translate_presentation
  rw [load_presentation_ok w input p hf]
  simp [hs]

theorem translate_presentation_loadfail (w : World) (input out g e : String)
    (hf : w.files input = some (Except.error e)) :
    translate_presentation w input out g
      = ([Event.fileRead input,
          Event.print ("Error loading file " ++ input ++ ": " ++ e)], false) := by
  unfold translate_presentation
  rw [load_presentation_err w input e hf]

theorem translate_presentation_savefail (w : World) (input out g : String) (p : Presentation)
    (hf : w.files input = some (Except.ok p))
    (hs : w.saveOk out (translate_presentation_core w.oracle g p).1 = false) :
    translate_presentation w input out g
      = (Event.fileRead input :: (translate_presentation_core w.oracle g p).2, false) := by
  unfold translate_presentation
  rw [load_presentation_ok w input p hf]
  simp [hs]

theorem program_run_success (w : World) (a input base ext : String) (p : Presentation)
    (hkey : keyOk w = true)
    (hargv : w.argv = [a, input])
    (hf : w.files input = some (Except.ok p))
    (hsp : splitext input = (base, ext))
    (hsfr : w.saveOk (base ++ "_fr" ++ ext)
        (translate_presentation_core w.oracle "French" p).1 = true)
    (hsen : w.saveOk (base ++ "_en" ++ ext)
        (translate_presentation_core w.oracle "English" p).1 = true) :
    program_run w
      = (Event.print "Starting translation to French..."
          :: (Event.fileRead input :: (translate_presentation_core w.oracle "French" p).2
              ++ [Event.fileWrite (base ++ "_fr" ++ ext)
                    (translate_presentation_core w.oracle "French" p).1])
          ++ Event.print ("French translation saved to " ++ (base ++ "_fr" ++ ext))
          :: Event.print "Starting translation to English..."
          :: (Event.fileRead input :: (translate_presentation_core w.oracle "English" p).2
              ++ [Event.fileWrite (base ++ "_en" ++ ext)
                    (translate_presentation_core w.oracle "English" p).1])
          ++ [Event.print ("English translation saved to " ++ (base ++ "_en" ++ ext))], 0) := by
  unfold program_run main_run
  simp only [hkey, hargv, if_true, List.length_cons, List.length_nil, List.getD,
    List.get?, Option.getD, hsp, hf, Option.isNone_some, Bool.false_eq_true, if_false]
  norm_num
  rw [translate_presentation_ok w input (base ++ "_fr" ++ ext) "French" p hf hsfr,
      translate_presentation_ok w input (base ++ "_en" ++ ext) "English" p hf hsen]
  simp

theorem translate_text_ok (oracle : Oracle) (text g c : String)
    (hc : oracle (mkRequest text g) = Except.ok c) :
    translate_text oracle text g
      = (pyStrip c, [Event.apiCall (mkRequest text g)]) := by
  unfold translate_text
  dsimp only
  rw [hc]

theorem translate_text_err (oracle : Oracle) (text g e : String)
    (he : oracle (mkRequest text g) = Except.error e) :
    translate_text oracle text g
      = (text, [Event.apiCall (mkRequest text g),
                Event.print ("Translation error: " ++ e)]) := by
  unfold translate_text
  dsimp only
  rw [he]

theorem processShape_events (oracle : Oracle) (g : String) (si hi : Nat) (s : Shape) :
    ∀ e ∈ (processShape oracle g si hi s).2,
      (∃ m, e = Event.print m) ∨ (∃ r, e = Event.apiCall r) := by
  obtain ⟨tf, pr⟩ := s
  unfold processShape
  cases tf with
  | none => intro e he; cases he
  | some t =>
      by_cases h : pyStrip t = ""
      · intro e he
        simp only [h, if_true] at he
        cases he
      · simp only [h, if_false]
        intro e he
        cases h2 : oracle (mkRequest t g) with
        | ok c =>
            rw [translate_text_ok oracle t g c h2] at he
            simp only [List.mem_cons, List.mem_singleton] at he
            rcases he with rfl | rfl | he
            · exact Or.inl ⟨_, rfl⟩
            · exact Or.inr ⟨_, rfl⟩
            · cases he
        | error er =>
            rw [translate_text_err oracle t g er h2] at he
            simp only [List.mem_cons, List.mem_singleton] at he
            rcases he with rfl | rfl | rfl | he
            · exact Or.inl ⟨_, rfl⟩
            · exact Or.inr ⟨_, rfl⟩
            · exact Or.inl ⟨_, rfl⟩
            · cases he

theorem core_events (oracle : Oracle) (g : String) (p : Presentation) :
    ∀ e ∈ (translate_presentation_core oracle g p).2,
      (∃ m, e = Event.print m) ∨ (∃ r, e = Event.apiCall r) := by
  unfold translate_presentation_core
  generalize 1 = si
  induction p generalizing si with
  | nil =>
      intro e he
      simp only [walkSlides] at he
      exact absurd he (List.not_mem_nil e)
  | cons sl rest ih =>
      intro e he
      simp only [walkSlides, List.mem_append] at he
      rcases he with he | he
      · clear ih
        generalize 1 = hi at he
        induction sl generalizing hi with
        | nil =>
            simp only [walkShapes] at he
            exact absurd he (List.not_mem_nil e)
        | cons s srest sih =>
            simp only [walkShapes, List.mem_append] at he
            rcases he with he | he
            · exact processShape_events oracle g si hi s e he
            · exact sih _ he
      · exact ih _ e he

theorem fileReads_core (oracle : Oracle) (g : String) (p : Presentation) :
    fileReads (translate_presentation_core oracle g p).2 = [] := by
  unfold fileReads
  rw [List.filterMap_eq_nil_iff]
  intro e he
  rcases core_events oracle g p e he with ⟨m, rfl⟩ | ⟨r, rfl⟩ <;> rfl

theorem fileWrites_core (oracle : Oracle) (g : String) (p : Presentation) :
    fileWrites (translate_presentation_core oracle g p).2 = [] := by
  unfold fileWrites
  rw [List.filterMap_eq_nil_iff]
  intro e he
  rcases core_events oracle g p e he with ⟨m, rfl⟩ | ⟨r, rfl⟩ <;> rfl

theorem fileReads_nil : fileReads [] = [] := rfl

theorem fileWrites_nil : fileWrites [] = [] := rfl

/-- How `fileReads` steps over each event constructor. -/
theorem fileReads_cons (e : Event) (rest : List Event) :
    fileReads (e :: rest)
      = (match e with | Event.fileRead path => [path] | _ => []) ++ fileReads rest := by
  cases e <;> rfl

/-- How `fileWrites` steps over each event constructor. -/
theorem fileWrites_cons (e : Event) (rest : List Event) :
    fileWrites (e :: rest)
      = (match e with | Event.fileWrite path doc => [(path, doc)] | _ => [])
          ++ fileWrites rest := by
  cases e <;> rfl

theorem fileReads_append (a b : List Event) :
    fileReads (a ++ b) = fileReads a ++ fileReads b := by
  simp [fileReads, List.filterMap_append]

theorem fileWrites_append (a b : List Event) :
    fileWrites (a ++ b) = fileWrites a ++ fileWrites b := by
  simp [fileWrites, List.filterMap_append]

theorem program_run_success_reads (w : World) (a input base ext : String) (p : Presentation)
    (hkey : keyOk w = true)
    (hargv : w.argv = [a, input])
    (hf : w.files input = some (Except.ok p))
    (hsp : splitext input = (base, ext))
    (hsfr : w.saveOk (base ++ "_fr" ++ ext)
        (translate_presentation_core w.oracle "French" p).1 = true)
    (hsen : w.saveOk (base ++ "_en" ++ ext)
        (translate_presentation_core w.oracle "English" p).1 = true) :
    fileReads (program_run w).1 = [input, input]
    ∧ fileWrites (program_run w).1
        = [(base ++ "_fr" ++ ext, (translate_presentation_core w.oracle "French" p).1),
           (base ++ "_en" ++ ext, (translate_presentation_core w.oracle "English" p).1)]
    ∧ (program_run w).2 = 0 := by
  rw [program_run_success w a input base ext p hkey hargv hf hsp hsfr hsen]
  refine ⟨?_, ?_, rfl⟩
  · simp only [List.cons_append, List.append_assoc, List.singleton_append,
      fileReads_cons, fileReads_append, fileReads_core, fileReads_nil,
      List.nil_append, List.append_nil]
  · simp only [List.cons_append, List.append_assoc, List.singleton_append,
      fileWrites_cons, fileWrites_append, fileWrites_core, fileWrites_nil,
      List.nil_append, List.append_nil]

/-! ## Claims -/

/-- C1: a translation pass preserves the slides and the shapes per slide,
in count and order, together with every non-text property; only text-frame
contents may change. On the spec's 2-slide example with a mocked service,
slide 1's text becomes the translation result and slide 2 is unchanged. -/
theorem C1_structure_preserved :
    (∀ (oracle : Oracle) (target : String) (p : Presentation),
      skeleton (translate_presentation_core oracle target p).1 = skeleton p)
    ∧ (translate_presentation_core demoOracle "English" demoPresentation).1
        = [[{ textFrame := some "Hello world", props := "title box" }],
           [{ textFrame := none, props := "picture" }]] :=
  ⟨fun oracle target p => core_skeleton oracle target p, by decide⟩

/-- C2: when the translation call raises, `translate_text` logs the error
and returns the input text unchanged; the walk continues (the pass completes
with the document unchanged and still visits every non-empty unit). -/
theorem C2_failure_fallback :
    ∀ (e text target : String) (p : Presentation),
      (translate_text (fun _ => Except.error e) text target).1 = text
      ∧ Event.print ("Translation error: " ++ e)
          ∈ (translate_text (fun _ => Except.error e) text target).2
      ∧ (translate_presentation_core (fun _ => Except.error e) target p).1 = p
      ∧ apiCalls (translate_presentation_core (fun _ => Except.error e) target p).2
          = (nonEmptyTexts p).map (fun t => mkRequest t target) := by
  intro e text target p
  refine ⟨?_, ?_, core_fail e target p, core_apiCalls _ target p⟩
  · rw [translate_text_fail]
  · rw [translate_text_fail]
    simp

/-- C3: one pass calls the service exactly once per text frame that is
non-empty after stripping, in document order, and never for any other shape;
skipped shapes are left exactly as they were. -/
theorem C3_calls_exactly_nonempty :
    ∀ (oracle : Oracle) (target : String) (p : Presentation),
      apiCalls (translate_presentation_core oracle target p).2
        = (nonEmptyTexts p).map (fun t => mkRequest t target)
      ∧ (translate_presentation_core oracle target p).1
          = p.map (fun sl => List.map (transformShape oracle target) sl)
      ∧ ∀ s : Shape, skippedShape s = true → transformShape oracle target s = s :=
  fun oracle target p =>
    ⟨core_apiCalls oracle target p, core_fst oracle target p,
     fun s h => transformShape_skipped oracle target s h⟩

theorem C3_witness :
    apiCalls (translate_presentation_core demoOracle "English" demoPresentation).2
      = [mkRequest "Hallo wereld" "English"]
    ∧ transformShape demoOracle "English" { textFrame := none, props := "picture" }
        = { textFrame := none, props := "picture" } :=
  ⟨((C3_calls_exactly_nonempty demoOracle "English" demoPresentation).1).trans (by decide),
   (C3_calls_exactly_nonempty demoOracle "English" demoPresentation).2.2
     { textFrame := none, props := "picture" } (by decide)⟩

/-- C4 counterexample: in a successful run the input file is read twice
(once per language pass), not exactly once as the claim states. -/
theorem C4_counterexample :
    fileReads (program_run demoWorld).1 = ["in.pptx", "in.pptx"]
    ∧ (fileReads (program_run demoWorld).1).length ≠ 1 := by
  constructor <;> decide

/-- C4 (amended): the driver runs the French pass first, then the English
pass; each pass itself re-loads the input file, so the input is loaded
exactly twice (once per target language), and one output document is saved
per target language (`_fr` first, `_en` second). -/
theorem C4_amended_driver_flow (w : World) (a input base ext : String) (p : Presentation)
    (hkey : keyOk w = true)
    (hargv : w.argv = [a, input])
    (hf : w.files input = some (Except.ok p))
    (hsp : splitext input = (base, ext))
    (hsfr : w.saveOk (base ++ "_fr" ++ ext)
        (translate_presentation_core w.oracle "French" p).1 = true)
    (hsen : w.saveOk (base ++ "_en" ++ ext)
        (translate_presentation_core w.oracle "English" p).1 = true) :
    fileReads (program_run w).1 = [input, input]
    ∧ (fileWrites (program_run w).1).map Prod.fst
        = [base ++ "_fr" ++ ext, base ++ "_en" ++ ext]
    ∧ (program_run w).2 = 0 := by
  obtain ⟨h1, h2, h3⟩ := program_run_success_reads w a input base ext p hkey hargv hf hsp hsfr hsen
  refine ⟨h1, ?_, h3⟩
  rw [h2]
  rfl

theorem C4_witness :
    fileReads (program_run demoWorld).1 = ["in.pptx", "in.pptx"]
    ∧ (fileWrites (program_run demoWorld).1).map Prod.fst = ["in_fr.pptx", "in_en.pptx"]
    ∧ (program_run demoWorld).2 = 0 :=
  C4_amended_driver_flow demoWorld "translate_pptx.py" "in.pptx" "in" ".pptx"
    demoPresentation (by decide) rfl rfl (by decide) rfl rfl

/-- C5 counterexample: for input text `"Hallo"` the user message's content
is `"Text:\nHallo"`, not the raw input text itself, refuting the claim that
the user message's content is the input text verbatim. -/
theorem C5_counterexample :
    ((mkRequest "Hallo" "English").messages.map Message.content).getD 1 "" = "Text:\nHallo"
    ∧ ((mkRequest "Hallo" "English").messages.map Message.content).getD 1 "" ≠ "Hallo" := by
  constructor <;> decide

/-- C5 (amended): every call of `translate_text` sends exactly one request:
model fixed to `"gpt-4-turbo"`, temperature 0, and a two-message prompt
whose system message names Dutch and the target language and whose user
message content is the literal `"Text:"` plus a newline followed by the raw
input text verbatim. -/
theorem C5_amended_prompt (oracle : Oracle) (text target : String) :
    apiCalls (translate_text oracle text target).2 = [mkRequest text target]
    ∧ mkRequest text target
        = { model := "gpt-4-turbo",
            messages :=
              [{ role := "system",
                 content :=
                   "You are a professional translator. Please translate the following Dutch text "
                     ++ "into " ++ target ++ ", preserving its original formatting where possible." },
               { role := "user", content := "Text:\n" ++ text }],
            temperature := 0 } := by
  constructor
  · cases h : oracle (mkRequest text target) with
    | error e => rw [translate_text_err oracle text target e h]; rfl
    | ok c => rw [translate_text_ok oracle text target c h]; rfl
  · rfl

/-- C6: a successful run on an input path splitting as `(base, ext)` writes
exactly the two files `base_fr ++ ext` and `base_en ++ ext`, and no others. -/
theorem C6_output_files (w : World) (a input base ext : String) (p : Presentation)
    (hkey : keyOk w = true)
    (hargv : w.argv = [a, input])
    (hf : w.files input = some (Except.ok p))
    (hsp : splitext input = (base, ext))
    (hsfr : w.saveOk (base ++ "_fr" ++ ext)
        (translate_presentation_core w.oracle "French" p).1 = true)
    (hsen : w.saveOk (base ++ "_en" ++ ext)
        (translate_presentation_core w.oracle "English" p).1 = true) :
    (fileWrites (program_run w).1).map Prod.fst
      = [base ++ "_fr" ++ ext, base ++ "_en" ++ ext]
    ∧ (program_run w).2 = 0 := by
  obtain ⟨h1, h2, h3⟩ := program_run_success_reads w a input base ext p hkey hargv hf hsp hsfr hsen
  refine ⟨?_, h3⟩
  rw [h2]
  rfl

theorem C6_witness :
    (fileWrites (program_run deckWorld).1).map Prod.fst = ["deck_fr.pptx", "deck_en.pptx"]
    ∧ (program_run deckWorld).2 = 0 :=
  C6_output_files deckWorld "translate_pptx.py" "deck.pptx" "deck" ".pptx"
    demoPresentation (by decide) rfl rfl (by decide) rfl rfl

/-- C7: with no `OPENAI_API_KEY` in the environment the process prints one
message and exits with code 1 at module load, before any file is read or
written. -/
theorem C7_missing_key (w : World) (h : w.apiKey = none) :
    program_run w
      = ([Event.print "Error: OPENAI_API_KEY is not set in the environment."], 1)
    ∧ fileReads (program_run w).1 = []
    ∧ fileWrites (program_run w).1 = [] := by
  have hk : keyOk w = false := by
    unfold keyOk
    rw [h]
  have hr : program_run w
      = ([Event.print "Error: OPENAI_API_KEY is not set in the environment."], 1) := by
    unfold program_run
    rw [hk]
    rfl
  refine ⟨hr, ?_, ?_⟩ <;> rw [hr] <;> rfl

theorem C7_witness :
    program_run noKeyWorld
      = ([Event.print "Error: OPENAI_API_KEY is not set in the environment."], 1)
    ∧ fileReads (program_run noKeyWorld).1 = []
    ∧ fileWrites (program_run noKeyWorld).1 = [] :=
  C7_missing_key noKeyWorld rfl

/-- C8: each fatal condition exits with code 1: missing CLI argument,
non-existent input file, and unparseable input document each print a message
and exit before any translation call; a failure while saving either output
file — the French one or the English one — also terminates the process with
exit code 1. -/
theorem C8_fatal_conditions :
    (∀ w : World, keyOk w = true → w.argv.length < 2 →
        program_run w = ([Event.print "Usage: python translate_pptx.py <input.pptx>"], 1))
    ∧ (∀ (w : World) (a input : String), keyOk w = true → w.argv = [a, input] →
        w.files input = none →
        program_run w = ([Event.print ("Error: File " ++ input ++ " does not exist.")], 1))
    ∧ (∀ (w : World) (a input e : String), keyOk w = true → w.argv = [a, input] →
        w.files input = some (Except.error e) →
        program_run w
          = ([Event.print "Starting translation to French...",
              Event.fileRead input,
              Event.print ("Error loading file " ++ input ++ ": " ++ e)], 1)
        ∧ apiCalls (program_run w).1 = [])
    ∧ (∀ (w : World) (a input base ext : String) (p : Presentation),
        keyOk w = true → w.argv = [a, input] →
        w.files input = some (Except.ok p) →
        splitext input = (base, ext) →
        w.saveOk (base ++ "_fr" ++ ext)
            (translate_presentation_core w.oracle "French" p).1 = false →
        (program_run w).2 = 1)
    ∧ (∀ (w : World) (a input base ext : String) (p : Presentation),
        keyOk w = true → w.argv = [a, input] →
        w.files input = some (Except.ok p) →
        splitext input = (base, ext) →
        w.saveOk (base ++ "_fr" ++ ext)
            (translate_presentation_core w.oracle "French" p).1 = true →
        w.saveOk (base ++ "_en" ++ ext)
            (translate_presentation_core w.oracle "English" p).1 = false →
        (program_run w).2 = 1) := by
  refine ⟨?_, ?_, ?_, ?_, ?_⟩
  · intro w hkey hlen
    unfold program_run main_run
    rw [hkey]
    simp [hlen]
  · intro w a input hkey hargv hmiss
    unfold program_run main_run
    rw [hkey, hargv]
    simp [hmiss]
  · intro w a input e hkey hargv hbad
    have hr : program_run w
        = ([Event.print "Starting translation to French...",
            Event.fileRead input,
            Event.print ("Error loading file " ++ input ++ ": " ++ e)], 1) := by
      unfold program_run main_run
      rw [hkey, hargv]
      simp only [if_true, List.length_cons, List.length_nil, List.getD,
        List.get?, Option.getD, hbad, Option.isNone_some, Bool.false_eq_true, if_false]
      norm_num
      rw [translate_presentation_loadfail w input _ "French" e hbad]
      simp
    exact ⟨hr, by rw [hr]; rfl⟩
  · intro w a input base ext p hkey hargv hf hsp hsave
    unfold program_run main_run
    rw [hkey, hargv]
    simp only [if_true, List.length_cons, List.length_nil, List.getD,
      List.get?, Option.getD, hsp, hf, Option.isNone_some, Bool.false_eq_true, if_false]
    norm_num
    rw [translate_presentation_savefail w input (base ++ "_fr" ++ ext) "French" p hf hsave]
    simp
  · intro w a input base ext p hkey hargv hf hsp hsfr hsen
    unfold program_run main_run
    rw [hkey, hargv]
    simp only [if_true, List.length_cons, List.length_nil, List.getD,
      List.get?, Option.getD, hsp, hf, Option.isNone_some, Bool.false_eq_true, if_false]
    norm_num
    rw [translate_presentation_ok w input (base ++ "_fr" ++ ext) "French" p hf hsfr,
        translate_presentation_savefail w input (base ++ "_en" ++ ext) "English" p hf hsen]
    simp

theorem C8_witness :
    program_run shortArgvWorld
      = ([Event.print "Usage: python translate_pptx.py <input.pptx>"], 1)
    ∧ program_run missingFileWorld
        = ([Event.print "Error: File absent.pptx does not exist."], 1)
    ∧ (program_run badParseWorld
        = ([Event.print "Starting translation to French...",
            Event.fileRead "in.pptx",
            Event.print "Error loading file in.pptx: Bad zip file"], 1)
        ∧ apiCalls (program_run badParseWorld).1 = [])
    ∧ (program_run saveFailWorld).2 = 1
    ∧ (program_run enSaveFailWorld).2 = 1 :=
  ⟨C8_fatal_conditions.1 shortArgvWorld (by decide) (by decide),
   C8_fatal_conditions.2.1 missingFileWorld "translate_pptx.py" "absent.pptx"
     (by decide) rfl rfl,
   C8_fatal_conditions.2.2.1 badParseWorld "translate_pptx.py" "in.pptx" "Bad zip file"
     (by decide) rfl rfl,
   C8_fatal_conditions.2.2.2.1 saveFailWorld "translate_pptx.py" "in.pptx" "in" ".pptx"
     demoPresentation (by decide) rfl rfl (by decide) rfl,
   C8_fatal_conditions.2.2.2.2 enSaveFailWorld "translate_pptx.py" "in.pptx" "in" ".pptx"
     demoPresentation (by decide) rfl rfl (by decide) (by decide) (by decide)⟩

/-- C9: each pass re-loads the input file (two reads of the input in a
successful run), and each saved output is the translation of the freshly
loaded original document: the English output is derived from the original
input, never from the French pass's result. -/
theorem C9_fresh_load_per_pass (w : World) (a input base ext : String) (p : Presentation)
    (hkey : keyOk w = true)
    (hargv : w.argv = [a, input])
    (hf : w.files input = some (Except.ok p))
    (hsp : splitext input = (base, ext))
    (hsfr : w.saveOk (base ++ "_fr" ++ ext)
        (translate_presentation_core w.oracle "French" p).1 = true)
    (hsen : w.saveOk (base ++ "_en" ++ ext)
        (translate_presentation_core w.oracle "English" p).1 = true) :
    fileReads (program_run w).1 = [input, input]
    ∧ fileWrites (program_run w).1
        = [(base ++ "_fr" ++ ext, (translate_presentation_core w.oracle "French" p).1),
           (base ++ "_en" ++ ext, (translate_presentation_core w.oracle "English" p).1)] :=
  let h := program_run_success_reads w a input base ext p hkey hargv hf hsp hsfr hsen
  ⟨h.1, h.2.1⟩

theorem C9_witness :
    fileReads (program_run demoWorld).1 = ["in.pptx", "in.pptx"]
    ∧ fileWrites (program_run demoWorld).1
        = [("in_fr.pptx", (translate_presentation_core demoWorld.oracle "French" demoPresentation).1),
           ("in_en.pptx", (translate_presentation_core demoWorld.oracle "English" demoPresentation).1)] :=
  C9_fresh_load_per_pass demoWorld "translate_pptx.py" "in.pptx" "in" ".pptx"
    demoPresentation (by decide) rfl rfl (by decide) rfl rfl

/-- C10: a successful translation returns the service response stripped of
leading and trailing whitespace, and the returned text has none left. -/
theorem C10_strip_response (oracle : Oracle) (text target r : String)
    (h : oracle (mkRequest text target) = Except.ok r) :
    (translate_text oracle text target).1 = pyStrip r
    ∧ pyStrip (translate_text oracle text target).1
        = (translate_text oracle text target).1 := by
  rw [translate_text_ok oracle text target r h]
  exact ⟨rfl, pyStrip_idempotent r⟩

theorem C10_witness :
    (translate_text (fun _ => Except.ok "  Hello world  ") "Hallo wereld" "English").1
      = pyStrip "  Hello world  "
    ∧ pyStrip (translate_text (fun _ => Except.ok "  Hello world  ") "Hallo wereld" "English").1
        = (translate_text (fun _ => Except.ok "  Hello world  ") "Hallo wereld" "English").1 :=
  C10_strip_response (fun _ => Except.ok "  Hello world  ") "Hallo wereld" "English"
    "  Hello world  " rfl
